import Mathlib

/-!
Shallow embedding of `src/cam.rs` from the `wvr-cam` repository: a
GStreamer-backed camera input provider.  The provider owns a shared
single-slot frame buffer (`Buffer`), written by the appsink
`new_sample` callback and read by `CamProvider::get`.  Bytes are
modelled as natural numbers (values 0–255 in practice; no arithmetic is
ever performed on them, only copying and reordering, so no overflow
modelling is needed).  The embedding covers the value-level behaviour
of the callback after a sample has been successfully extracted
(format, width, height, raw bytes), the read path, and the lifecycle
commands; the GStreamer plumbing itself (caps parsing, buffer mapping)
is external and is represented by the extracted values.
-/

/-- The `wvr_data::types::Buffer` struct: `dimensions: Vec<usize>` and
`data: Option<Vec<u8>>`.  In every reachable state `dimensions` is the
three-element list `[width, height, 3]`. -/
structure Buffer where
  dimensions : List Nat
  data : Option (List Nat)
deriving DecidableEq

/-- The GStreamer video formats the callback matches on
(`gst_video::VideoFormat`).  `Unknown` stands for every format other
than the four supported ones (the `unsupported_format` catch-all arm in
the source). -/
inductive VideoFormat where
  | Rgb
  | Rgba
  | Bgr
  | Bgra
  | Unknown
deriving DecidableEq

/-- The `TextureFormat` enum of `cam.rs`. -/
inductive TextureFormat where
  | RGBU8
  | RGBAU8
  | BGRU8
  | BGRAU8
deriving DecidableEq

/-- The `match video_info.format()` arms of the `new_sample` callback:
the four supported formats map to a `TextureFormat`; anything else is
the `unsupported_format` arm (modelled as `none`). -/
def toTextureFormat : VideoFormat → Option TextureFormat
  | VideoFormat.Rgb => some TextureFormat.RGBU8
  | VideoFormat.Rgba => some TextureFormat.RGBAU8
  | VideoFormat.Bgr => some TextureFormat.BGRU8
  | VideoFormat.Bgra => some TextureFormat.BGRAU8
  | VideoFormat.Unknown => none

/-- Bytes per pixel of the image type each `TextureFormat` arm feeds to
`ImageBuffer::from_raw` (`Rgb<u8>`: 3, `Rgba<u8>`: 4, `Bgr<u8>`: 3,
`Bgra<u8>`: 4). -/
def TextureFormat.bytesPerPixel : TextureFormat → Nat
  | TextureFormat.RGBU8 => 3
  | TextureFormat.RGBAU8 => 4
  | TextureFormat.BGRU8 => 3
  | TextureFormat.BGRAU8 => 4

/-- The per-pixel colour conversions of the `image` crate (version
0.23) used by `DynamicImage::into_rgb8`: given the byte block of one
source pixel, produce the three canonical RGB bytes.  `Rgba` drops the
alpha byte, `Bgr` swaps the first and third channel, `Bgra` swaps and
drops alpha; values are never changed, only moved. -/
def pixelToRgb (fmt : TextureFormat) (px : List Nat) : List Nat :=
  match fmt with
  | TextureFormat.RGBU8 => [px.getD 0 0, px.getD 1 0, px.getD 2 0]
  | TextureFormat.RGBAU8 => [px.getD 0 0, px.getD 1 0, px.getD 2 0]
  | TextureFormat.BGRU8 => [px.getD 2 0, px.getD 1 0, px.getD 0 0]
  | TextureFormat.BGRAU8 => [px.getD 2 0, px.getD 1 0, px.getD 0 0]

/-- The `image_buffer` computation of the callback followed by
`into_vec()`: `DynamicImage::into_rgb8` is the identity on an
`ImageRgb8` image (its raw container is returned unchanged, excess
bytes included), and converts `ImageRgba8`, `ImageBgr8` and
`ImageBgra8` pixel by pixel into a fresh `width*height*3` buffer,
reading pixel `i` from the byte block starting at `i * bytesPerPixel`. -/
def convert (fmt : TextureFormat) (w h : Nat) (samples : List Nat) : List Nat :=
  match fmt with
  | TextureFormat.RGBU8 => samples
  | TextureFormat.RGBAU8 =>
      (List.range (w * h)).flatMap fun i =>
        pixelToRgb TextureFormat.RGBAU8 ((samples.drop (i * 4)).take 4)
  | TextureFormat.BGRU8 =>
      (List.range (w * h)).flatMap fun i =>
        pixelToRgb TextureFormat.BGRU8 ((samples.drop (i * 3)).take 3)
  | TextureFormat.BGRAU8 =>
      (List.range (w * h)).flatMap fun i =>
        pixelToRgb TextureFormat.BGRAU8 ((samples.drop (i * 4)).take 4)

/-- `image::ImageBuffer::from_raw(width, height, buf)` (image crate
0.23): returns `Some` exactly when the container is at least
`width*height*bytesPerPixel` bytes long — larger containers are
accepted and kept whole — and `None` when it is too small. -/
def from_raw (bpp w h : Nat) (buf : List Nat) : Option (List Nat) :=
  if w * h * bpp ≤ buf.length then some buf else none

/-- The critical section of the `new_sample` callback (the
`video_buffer.lock()` success arm): both fields of the shared buffer
are assigned, `data := Some(bytes)` and `dimensions := [w, h, 3]`. -/
def slotWrite (b : Buffer) (w h : Nat) (bytes : List Nat) : Buffer :=
  { b with data := some bytes, dimensions := [w, h, 3] }

/-- The `gst::FlowError` values the callback returns. -/
inductive FlowErr where
  | Eos
  | Error
deriving DecidableEq

/-- How one invocation of the `new_sample` callback ends: normal
completion (`Ok(FlowSuccess::Ok)`), an early `Err(FlowError)` return,
or a Rust panic (the `.unwrap()` on the result of
`ImageBuffer::from_raw`). -/
inductive SampleOutcome where
  | ok
  | err : FlowErr → SampleOutcome
  | panicked
deriving DecidableEq

/-- Result of one callback invocation: its outcome, the messages
printed to stderr, and the state of the shared frame slot afterwards. -/
structure SampleResult where
  outcome : SampleOutcome
  log : List String
  slot : Buffer
deriving DecidableEq

/-- The `new_sample` callback of `CamProvider::new`, from the point
where format, width, height and raw bytes have been extracted from the
sample (the earlier gst extraction failures return `Err` without
touching the slot and are outside the frame-handling logic the claims
concern).  An unsupported format logs and returns `FlowError::Error`;
a supported format is fed to `ImageBuffer::from_raw`, whose `None`
result is `.unwrap()`-ed by the source — a panic; on success the
converted bytes overwrite the slot under the lock (the lock poisoning
arm is unreachable in this single-threaded value model). -/
def new_sample (fmt : VideoFormat) (w h : Nat) (samples : List Nat)
    (slot : Buffer) : SampleResult :=
  match toTextureFormat fmt with
  | none =>
      { outcome := SampleOutcome.err FlowErr.Error
        log := ["Unsupported format"]
        slot := slot }
  | some format =>
      match from_raw format.bytesPerPixel w h samples with
      | none => { outcome := SampleOutcome.panicked, log := [], slot := slot }
      | some buf =>
          { outcome := SampleOutcome.ok
            log := []
            slot := slotWrite slot w h (convert format w h buf) }

/-- The GStreamer pipeline states used by the source
(`gst::State`). -/
inductive GstState where
  | Null
  | Ready
  | Paused
  | Playing
deriving DecidableEq

/-- The external pipeline contract assumed by the spec (the pipeline
"must accept" the start/pause/stop commands, and `CamProvider::new`
itself relies on `set_state(Playing)` succeeding from the initial
state): a state-change request succeeds and the pipeline adopts the
requested state.  The source performs no local state checking around
these calls. -/
def set_state (requested : GstState) : Except String GstState :=
  Except.ok requested

/-- The `DataHolder::Texture` variant returned by `get`: a
`((width, height), bytes)` pair. -/
inductive DataHolder where
  | Texture : (Nat × Nat) × List Nat → DataHolder
deriving DecidableEq

/-- The `CamProvider` struct: logical name, the shared frame slot, and
the pipeline handle (represented by its current state). -/
structure CamProvider where
  name : String
  video_buffer : Buffer
  pipeline : GstState
deriving DecidableEq

/-- The initial shared buffer built by `CamProvider::new`:
`dimensions = vec![resolution.0, resolution.1, 3]`, `data = None`. -/
def initialBuffer (resolution : Nat × Nat) : Buffer :=
  { dimensions := [resolution.1, resolution.2, 3], data := none }

/-- The success path of `CamProvider::new` (pipeline parsed and
started): the freshly constructed provider, after
`pipeline.set_state(State::Playing)` succeeded. -/
def CamProvider.new (name : String) (resolution : Nat × Nat) : CamProvider :=
  { name := name
    video_buffer := initialBuffer resolution
    pipeline := GstState.Playing }

/-- `InputProvider::get` for `CamProvider`: on a name match, the
current frame (if any) is copied out as a texture whose size is read
from `dimensions[0]` and `dimensions[1]`; if `invalidate` is set the
data field is cleared afterwards.  On a name mismatch nothing happens
and `None` is returned.  Rust mutates `self`; the embedding returns
the result together with the updated provider. -/
def CamProvider.get (self : CamProvider) (uniform_name : String)
    (invalidate : Bool) : Option DataHolder × CamProvider :=
  if uniform_name = self.name then
    let vb := self.video_buffer
    let result := vb.data.map fun data =>
      DataHolder.Texture ((vb.dimensions.getD 0 0, vb.dimensions.getD 1 0), data)
    let vb2 := if invalidate then { vb with data := none } else vb
    (result, { self with video_buffer := vb2 })
  else
    (none, self)

/-- `InputProvider::set_name`. -/
def CamProvider.set_name (self : CamProvider) (name : String) : CamProvider :=
  { self with name := name }

/-- `InputProvider::provides`. -/
def CamProvider.provides (self : CamProvider) : List String :=
  [self.name]

/-- `InputProvider::stop`: requests the `Null` state on the pipeline. -/
def CamProvider.stop (self : CamProvider) : Except String Unit × CamProvider :=
  match set_state GstState.Null with
  | Except.ok s => (Except.ok (), { self with pipeline := s })
  | Except.error e =>
      (Except.error ("Failed to stop video playback: " ++ e), self)

/-- `InputProvider::play`: requests the `Playing` state on the
pipeline, unconditionally — the source keeps no local lifecycle state
and performs no transition check. -/
def CamProvider.play (self : CamProvider) : Except String Unit × CamProvider :=
  match set_state GstState.Playing with
  | Except.ok s => (Except.ok (), { self with pipeline := s })
  | Except.error e =>
      (Except.error ("Failed to resume video playback: " ++ e), self)

/-- `InputProvider::pause`: requests the `Paused` state. -/
def CamProvider.pause (self : CamProvider) : Except String Unit × CamProvider :=
  match set_state GstState.Paused with
  | Except.ok s => (Except.ok (), { self with pipeline := s })
  | Except.error e =>
      (Except.error ("Failed to pause video playback: " ++ e), self)

/-- The frame-slot size invariant stated by the spec: whenever `data`
is present, its byte length is exactly `width * height * 3` for the
stored dimensions. -/
def Buffer.lenInvariant (b : Buffer) : Prop :=
  ∀ d, b.data = some d →
    d.length = b.dimensions.getD 0 0 * b.dimensions.getD 1 0 * 3

/-- Specification-side description of normalization (spec section 4.1
and section 8): the source byte index feeding output channel `c`
(0 = R, 1 = G, 2 = B) of output pixel `i`, for each supported layout —
channels are reordered and alpha is discarded, values are unchanged. -/
def srcIndexSpec : TextureFormat → Nat → Nat → Nat
  | TextureFormat.RGBU8, i, c => 3 * i + c
  | TextureFormat.RGBAU8, i, c => 4 * i + c
  | TextureFormat.BGRU8, i, c => 3 * i + (2 - c)
  | TextureFormat.BGRAU8, i, c => 4 * i + (2 - c)

/-! ### Helper lemmas -/

theorem getD_drop (l : List Nat) (s k : Nat) :
    (l.drop s).getD k 0 = l.getD (s + k) 0 := by
  induction s generalizing l with
  | zero => simp
  | succ m ih =>
      cases l with
      | nil => simp
      | cons a t => simp [Nat.succ_add, ih]

theorem getD_take (l : List Nat) (n k : Nat) (hk : k < n) :
    (l.take n).getD k 0 = l.getD k 0 := by
  simp [List.getElem?_take_of_lt hk]

theorem length_flatMap_three (f : Nat → List Nat) (n : Nat)
    (hf : ∀ i, (f i).length = 3) :
    ((List.range n).flatMap f).length = 3 * n := by
  induction n with
  | zero => simp
  | succ m ih =>
      rw [List.range_succ, List.flatMap_append, List.length_append, ih]
      simp [hf]
      omega

theorem getD_flatMap_three (f : Nat → List Nat) (hf : ∀ j, (f j).length = 3)
    (n i c : Nat) (hc : c < 3) :
    i < n → ((List.range n).flatMap f).getD (3 * i + c) 0 = (f i).getD c 0 := by
  induction n with
  | zero => intro hi; omega
  | succ m ih =>
      intro hi
      rw [List.range_succ, List.flatMap_append]
      rcases Nat.lt_or_ge i m with hlt | hge
      · rw [List.getD_eq_getElem?_getD,
            List.getElem?_append_left (by rw [length_flatMap_three f m hf]; omega),
            ← List.getD_eq_getElem?_getD]
        exact ih hlt
      · have heq : i = m := by omega
        subst heq
        have hlen : ((List.range i).flatMap f).length = 3 * i :=
          length_flatMap_three f i hf
        rw [List.getD_eq_getElem?_getD,
            List.getElem?_append_right (by omega), hlen]
        have hsub : 3 * i + c - 3 * i = c := by omega
        rw [hsub, List.flatMap_singleton, ← List.getD_eq_getElem?_getD]

theorem lenInvariant_clear (b : Buffer) :
    Buffer.lenInvariant { b with data := none } := by
  intro d hd
  simp at hd

theorem convert_length (fmt : TextureFormat) (w h : Nat) (samples : List Nat)
    (hrgb : fmt = TextureFormat.RGBU8 → samples.length = w * h * 3) :
    (convert fmt w h samples).length = w * h * 3 := by
  cases fmt with
  | RGBU8 => simpa [convert] using hrgb rfl
  | RGBAU8 =>
      have hlen := length_flatMap_three
        (fun i => pixelToRgb TextureFormat.RGBAU8 ((samples.drop (i * 4)).take 4))
        (w * h) (fun _ => rfl)
      rw [show convert TextureFormat.RGBAU8 w h samples
            = (List.range (w * h)).flatMap
                (fun i => pixelToRgb TextureFormat.RGBAU8
                  ((samples.drop (i * 4)).take 4)) from rfl, hlen]
      omega
  | BGRU8 =>
      have hlen := length_flatMap_three
        (fun i => pixelToRgb TextureFormat.BGRU8 ((samples.drop (i * 3)).take 3))
        (w * h) (fun _ => rfl)
      rw [show convert TextureFormat.BGRU8 w h samples
            = (List.range (w * h)).flatMap
                (fun i => pixelToRgb TextureFormat.BGRU8
                  ((samples.drop (i * 3)).take 3)) from rfl, hlen]
      omega
  | BGRAU8 =>
      have hlen := length_flatMap_three
        (fun i => pixelToRgb TextureFormat.BGRAU8 ((samples.drop (i * 4)).take 4))
        (w * h) (fun _ => rfl)
      rw [show convert TextureFormat.BGRAU8 w h samples
            = (List.range (w * h)).flatMap
                (fun i => pixelToRgb TextureFormat.BGRAU8
                  ((samples.drop (i * 4)).take 4)) from rfl, hlen]
      omega

theorem toTextureFormat_rgb (fmt : VideoFormat)
    (h : toTextureFormat fmt = some TextureFormat.RGBU8) :
    fmt = VideoFormat.Rgb := by
  cases fmt <;> first | rfl | simp [toTextureFormat] at h

theorem new_sample_slot (fmt : VideoFormat) (w h : Nat) (samples : List Nat)
    (slot : Buffer) :
    (new_sample fmt w h samples slot).slot = slot
    ∨ ∃ tf, toTextureFormat fmt = some tf
        ∧ w * h * tf.bytesPerPixel ≤ samples.length
        ∧ (new_sample fmt w h samples slot).slot
            = slotWrite slot w h (convert tf w h samples) := by
  cases fmt with
  | Unknown => left; rfl
  | Rgb =>
      by_cases hle : w * h * 3 ≤ samples.length
      · right
        refine ⟨TextureFormat.RGBU8, rfl, ?_, ?_⟩
        · simpa [TextureFormat.bytesPerPixel] using hle
        · simp [new_sample, toTextureFormat, from_raw,
            TextureFormat.bytesPerPixel, hle]
      · left
        simp [new_sample, toTextureFormat, from_raw,
          TextureFormat.bytesPerPixel, hle]
  | Rgba =>
      by_cases hle : w * h * 4 ≤ samples.length
      · right
        refine ⟨TextureFormat.RGBAU8, rfl, ?_, ?_⟩
        · simpa [TextureFormat.bytesPerPixel] using hle
        · simp [new_sample, toTextureFormat, from_raw,
            TextureFormat.bytesPerPixel, hle]
      · left
        simp [new_sample, toTextureFormat, from_raw,
          TextureFormat.bytesPerPixel, hle]
  | Bgr =>
      by_cases hle : w * h * 3 ≤ samples.length
      · right
        refine ⟨TextureFormat.BGRU8, rfl, ?_, ?_⟩
        · simpa [TextureFormat.bytesPerPixel] using hle
        · simp [new_sample, toTextureFormat, from_raw,
            TextureFormat.bytesPerPixel, hle]
      · left
        simp [new_sample, toTextureFormat, from_raw,
          TextureFormat.bytesPerPixel, hle]
  | Bgra =>
      by_cases hle : w * h * 4 ≤ samples.length
      · right
        refine ⟨TextureFormat.BGRAU8, rfl, ?_, ?_⟩
        · simpa [TextureFormat.bytesPerPixel] using hle
        · simp [new_sample, toTextureFormat, from_raw,
            TextureFormat.bytesPerPixel, hle]
      · left
        simp [new_sample, toTextureFormat, from_raw,
          TextureFormat.bytesPerPixel, hle]

/-! ### Concrete instances used by witnesses and counterexamples -/

/-- A provider whose slot holds a 1x1 frame. -/
def camW : CamProvider :=
  { name := "cam"
    video_buffer := { dimensions := [1, 1, 3], data := some [9, 8, 7] }
    pipeline := GstState.Playing }

/-- A provider with an empty slot. -/
def camE : CamProvider :=
  { name := "cam"
    video_buffer := { dimensions := [1, 1, 3], data := none }
    pipeline := GstState.Playing }

/-- An empty 1x1 slot. -/
def slotE : Buffer := { dimensions := [1, 1, 3], data := none }

/-! ### Claim theorems -/

/-- C1: on a slot holding a frame, `get` with `invalidate=true` returns
`Some` and an immediately following `get` with `invalidate=true` (no
intervening write) returns `None`; `get` with `invalidate=false`
returns `Some` and leaves the provider unchanged, so repeated calls
return the same frame until a new write. -/
theorem C1_invalidate_semantics (p : CamProvider) (d : List Nat)
    (h : p.video_buffer.data = some d) :
    ((p.get p.name true).1.isSome = true
      ∧ (((p.get p.name true).2).get p.name true).1 = none)
    ∧ ((p.get p.name false).1.isSome = true ∧ (p.get p.name false).2 = p) := by
  unfold CamProvider.get
  simp [h]

theorem C1_witness :
    ((camW.get camW.name true).1.isSome = true
      ∧ (((camW.get camW.name true).2).get camW.name true).1 = none)
    ∧ ((camW.get camW.name false).1.isSome = true
      ∧ (camW.get camW.name false).2 = camW) :=
  C1_invalidate_semantics camW [9, 8, 7] rfl

/-- C3: evidence of the code bug.  The spec demands that a frame whose
byte count does not match `width*height*bytesPerPixel` fail with a
non-fatal `MalformedFrame` error, be dropped and logged, and never
crash.  The source instead calls `.unwrap()` on the result of
`ImageBuffer::from_raw`: a 2x2 RGB frame delivered with 11 bytes (one
short of 12) makes `from_raw` return `None` and the callback panic
with nothing logged (the slot itself is untouched because the panic
happens before the lock is taken). -/
theorem C3_short_rgb_frame_panics :
    new_sample VideoFormat.Rgb 2 2 [0, 1, 2, 3, 4, 5, 6, 7, 8, 9, 10]
        { dimensions := [2, 2, 3], data := none }
      = { outcome := SampleOutcome.panicked
          log := []
          slot := { dimensions := [2, 2, 3], data := none } } := by
  rfl

/-- C4: the slot write is last-writer-wins — writing frame A and then
frame B with no read in between leaves the slot exactly as if only B
had been written, and any subsequent matching read returns the
dimensions and data of B, never of A. -/
theorem C4_overwrite_last_writer_wins (b : Buffer) (w1 h1 w2 h2 : Nat)
    (d1 d2 : List Nat) (nm : String) (st : GstState) (inv : Bool) :
    slotWrite (slotWrite b w1 h1 d1) w2 h2 d2 = slotWrite b w2 h2 d2
    ∧ (CamProvider.get
        { name := nm
          video_buffer := slotWrite (slotWrite b w1 h1 d1) w2 h2 d2
          pipeline := st } nm inv).1
      = some (DataHolder.Texture ((w2, h2), d2)) := by
  constructor
  · rfl
  · simp [CamProvider.get, slotWrite]

/-- C5: `get` with a name different from the provider logical name
returns `None` and leaves the provider (slot included) unchanged, for
every slot content and every invalidate flag. -/
theorem C5_name_mismatch (p : CamProvider) (nm : String) (inv : Bool)
    (h : nm ≠ p.name) :
    p.get nm inv = (none, p) := by
  simp [CamProvider.get, h]

theorem C5_witness : camW.get "other" true = (none, camW) :=
  C5_name_mismatch camW "other" true (by decide)

/-- C6 counterexample: `Stopped` is not terminal in the code.  On a
concrete provider, `stop()` followed by `play()` returns `Ok` (no
`StateTransitionError`) and puts the pipeline back into `Playing` —
the stopped session is resurrected, contradicting the claim. -/
theorem C6_play_after_stop_resumes :
    ((camE.stop.2).play).1 = Except.ok ()
    ∧ ((camE.stop.2).play).2.pipeline = GstState.Playing :=
  ⟨rfl, rfl⟩

/-- C6 amended: `stop()` requests the `Null` pipeline state and
succeeds; a subsequent `play()` is not rejected locally — the source
keeps no lifecycle state and re-issues the same `set_state(Playing)`
request construction makes, so under the collaborator contract of the
spec (the pipeline accepts start/pause/stop commands) the session
returns to `Playing`. -/
theorem C6_amended_no_local_rejection (p : CamProvider) :
    (p.stop).1 = Except.ok ()
    ∧ ((p.stop).2).pipeline = GstState.Null
    ∧ (((p.stop).2).play).1 = Except.ok ()
    ∧ (((p.stop).2).play).2.pipeline = GstState.Playing :=
  ⟨rfl, rfl, rfl, rfl⟩

/-- C8: a frame whose declared layout is not one of the four supported
formats makes the callback return `FlowError::Error` with a log
message; the slot is returned unchanged (dimensions and data), and
nothing else of the provider is touched. -/
theorem C8_unsupported_format (fmt : VideoFormat) (w h : Nat)
    (samples : List Nat) (slot : Buffer)
    (hfmt : toTextureFormat fmt = none) :
    new_sample fmt w h samples slot
      = { outcome := SampleOutcome.err FlowErr.Error
          log := ["Unsupported format"]
          slot := slot } := by
  unfold new_sample
  rw [hfmt]

theorem C8_witness :
    new_sample VideoFormat.Unknown 2 2 [0] slotE
      = { outcome := SampleOutcome.err FlowErr.Error
          log := ["Unsupported format"]
          slot := slotE } :=
  C8_unsupported_format VideoFormat.Unknown 2 2 [0] slotE rfl

/-- C9: a matching read with `invalidate=true` on a slot holding a
frame clears only the data field; the dimensions field keeps the last
known dimensions unchanged. -/
theorem C9_invalidate_clears_only_data (p : CamProvider) (d : List Nat)
    (_h : p.video_buffer.data = some d) :
    ((p.get p.name true).2).video_buffer.data = none
    ∧ ((p.get p.name true).2).video_buffer.dimensions
        = p.video_buffer.dimensions := by
  simp [CamProvider.get]

theorem C9_witness :
    ((camW.get camW.name true).2).video_buffer.data = none
    ∧ ((camW.get camW.name true).2).video_buffer.dimensions
        = camW.video_buffer.dimensions :=
  C9_invalidate_clears_only_data camW [9, 8, 7] rfl

/-- C10: immediately after (successful) construction the slot holds
`data = None` with dimensions `[requested_width, requested_height, 3]`,
and the first `get` — for every requested name and every invalidate
flag — returns `None` and leaves the provider unchanged. -/
theorem C10_initial_state (nm q : String) (res : Nat × Nat) (inv : Bool) :
    (CamProvider.new nm res).video_buffer
        = { dimensions := [res.1, res.2, 3], data := none }
    ∧ ((CamProvider.new nm res).get q inv).1 = none
    ∧ ((CamProvider.new nm res).get q inv).2 = CamProvider.new nm res := by
  refine ⟨rfl, ?_, ?_⟩ <;>
    by_cases hq : q = nm <;>
      cases inv <;>
        simp [CamProvider.new, CamProvider.get, initialBuffer, hq]

/-- C7 counterexample: the invariant is not preserved by every frame
write.  `ImageBuffer::from_raw` accepts a container *longer* than
`width*height*bytesPerPixel`, and for an RGB frame `into_rgb8` is the
identity, so the over-long container is stored whole: a 1x1 RGB frame
delivered with 4 bytes completes successfully and leaves the slot with
4 bytes of data against dimensions `[1, 1, 3]`. -/
theorem C7_overlong_rgb_breaks_invariant :
    (new_sample VideoFormat.Rgb 1 1 [1, 2, 3, 4] slotE).outcome
        = SampleOutcome.ok
    ∧ ¬ Buffer.lenInvariant (new_sample VideoFormat.Rgb 1 1 [1, 2, 3, 4] slotE).slot := by
  constructor
  · rfl
  · intro hinv
    exact absurd (hinv [1, 2, 3, 4] rfl) (by decide)

/-- C7 amended: the size invariant (data present implies its length is
`width*height*3` for the stored dimensions) holds after construction
and is preserved by every `get`; it is preserved by a frame write
provided an RGB frame does not carry more than `width*height*3` bytes
(the RGBA, BGR and BGRA conversions always emit exactly
`width*height*3` bytes whatever the input length; an RGB frame is
stored as delivered, so only its over-long case violates the
invariant, and its under-long case panics before writing). -/
theorem C7_invariant_preserved :
    (∀ res : Nat × Nat, Buffer.lenInvariant (initialBuffer res))
    ∧ (∀ (p : CamProvider) (nm : String) (inv : Bool),
        Buffer.lenInvariant p.video_buffer →
        Buffer.lenInvariant ((p.get nm inv).2).video_buffer)
    ∧ (∀ (fmt : VideoFormat) (w h : Nat) (samples : List Nat) (slot : Buffer),
        Buffer.lenInvariant slot →
        (fmt = VideoFormat.Rgb → samples.length ≤ w * h * 3) →
        Buffer.lenInvariant (new_sample fmt w h samples slot).slot) := by
  refine ⟨?_, ?_, ?_⟩
  · intro res d hd
    exact Option.noConfusion hd
  · intro p nm inv hp
    unfold CamProvider.get
    by_cases hnm : nm = p.name
    · cases inv
      · simpa [hnm] using hp
      · simp only [hnm, if_pos rfl]
        exact lenInvariant_clear p.video_buffer
    · simpa [hnm] using hp
  · intro fmt w h samples slot hslot hrgb
    rcases new_sample_slot fmt w h samples slot with heq | ⟨tf, htf, hle, heq⟩
    · rw [heq]; exact hslot
    · rw [heq]
      have hcl : (convert tf w h samples).length = w * h * 3 := by
        apply convert_length
        intro htfr
        subst htfr
        have hfr : fmt = VideoFormat.Rgb := toTextureFormat_rgb fmt htf
        have h1 := hrgb hfr
        have h2 : w * h * 3 ≤ samples.length := by
          simpa [TextureFormat.bytesPerPixel] using hle
        omega
      intro d hd
      simp only [slotWrite] at hd
      simp only [slotWrite]
      have hd2 : d = convert tf w h samples := by
        simpa using hd.symm
      rw [hd2, hcl]
      simp

theorem C7_witness :
    Buffer.lenInvariant (new_sample VideoFormat.Rgba 1 1 [5, 6, 7, 8] slotE).slot :=
  C7_invariant_preserved.2.2 VideoFormat.Rgba 1 1 [5, 6, 7, 8] slotE
    (fun _ hd => Option.noConfusion hd)
    (fun hf => VideoFormat.noConfusion hf)

/-- C2: for every supported layout and every frame whose byte count is
exactly `width*height*bytesPerPixel`, normalization emits exactly
`width*height*3` bytes, and output channel `c` of pixel `i` carries
exactly the input byte the layout assigns to it (channels reordered,
alpha discarded, values unchanged). -/
theorem C2_normalization_correct (fmt : TextureFormat) (w h : Nat)
    (samples : List Nat)
    (hlen : samples.length = w * h * fmt.bytesPerPixel) :
    (convert fmt w h samples).length = w * h * 3
    ∧ ∀ i c, i < w * h → c < 3 →
        (convert fmt w h samples).getD (3 * i + c) 0
          = samples.getD (srcIndexSpec fmt i c) 0 := by
  constructor
  · apply convert_length
    intro hr
    subst hr
    simpa [TextureFormat.bytesPerPixel] using hlen
  · intro i c hi hc
    cases fmt with
    | RGBU8 => rfl
    | RGBAU8 =>
        have hconv : convert TextureFormat.RGBAU8 w h samples
            = (List.range (w * h)).flatMap
                (fun j => pixelToRgb TextureFormat.RGBAU8
                  ((samples.drop (j * 4)).take 4)) := rfl
        rw [hconv, getD_flatMap_three
          (fun j => pixelToRgb TextureFormat.RGBAU8 ((samples.drop (j * 4)).take 4))
          (fun _ => rfl) (w * h) i c hc hi]
        have hc3 : c = 0 ∨ c = 1 ∨ c = 2 := by omega
        rcases hc3 with rfl | rfl | rfl
        · show ((samples.drop (i * 4)).take 4).getD 0 0
              = samples.getD (srcIndexSpec TextureFormat.RGBAU8 i 0) 0
          rw [getD_take _ 4 0 (by omega), getD_drop]
          simp only [srcIndexSpec]
          congr 1
          ring
        · show ((samples.drop (i * 4)).take 4).getD 1 0
              = samples.getD (srcIndexSpec TextureFormat.RGBAU8 i 1) 0
          rw [getD_take _ 4 1 (by omega), getD_drop]
          simp only [srcIndexSpec]
          congr 1
          ring
        · show ((samples.drop (i * 4)).take 4).getD 2 0
              = samples.getD (srcIndexSpec TextureFormat.RGBAU8 i 2) 0
          rw [getD_take _ 4 2 (by omega), getD_drop]
          simp only [srcIndexSpec]
          congr 1
          ring
    | BGRU8 =>
        have hconv : convert TextureFormat.BGRU8 w h samples
            = (List.range (w * h)).flatMap
                (fun j => pixelToRgb TextureFormat.BGRU8
                  ((samples.drop (j * 3)).take 3)) := rfl
        rw [hconv, getD_flatMap_three
          (fun j => pixelToRgb TextureFormat.BGRU8 ((samples.drop (j * 3)).take 3))
          (fun _ => rfl) (w * h) i c hc hi]
        have hc3 : c = 0 ∨ c = 1 ∨ c = 2 := by omega
        rcases hc3 with rfl | rfl | rfl
        · show ((samples.drop (i * 3)).take 3).getD 2 0
              = samples.getD (srcIndexSpec TextureFormat.BGRU8 i 0) 0
          rw [getD_take _ 3 2 (by omega), getD_drop]
          simp only [srcIndexSpec]
          congr 1
          ring
        · show ((samples.drop (i * 3)).take 3).getD 1 0
              = samples.getD (srcIndexSpec TextureFormat.BGRU8 i 1) 0
          rw [getD_take _ 3 1 (by omega), getD_drop]
          simp only [srcIndexSpec]
          congr 1
          ring
        · show ((samples.drop (i * 3)).take 3).getD 0 0
              = samples.getD (srcIndexSpec TextureFormat.BGRU8 i 2) 0
          rw [getD_take _ 3 0 (by omega), getD_drop]
          simp only [srcIndexSpec]
          congr 1
          ring
    | BGRAU8 =>
        have hconv : convert TextureFormat.BGRAU8 w h samples
            = (List.range (w * h)).flatMap
                (fun j => pixelToRgb TextureFormat.BGRAU8
                  ((samples.drop (j * 4)).take 4)) := rfl
        rw [hconv, getD_flatMap_three
          (fun j => pixelToRgb TextureFormat.BGRAU8 ((samples.drop (j * 4)).take 4))
          (fun _ => rfl) (w * h) i c hc hi]
        have hc3 : c = 0 ∨ c = 1 ∨ c = 2 := by omega
        rcases hc3 with rfl | rfl | rfl
        · show ((samples.drop (i * 4)).take 4).getD 2 0
              = samples.getD (srcIndexSpec TextureFormat.BGRAU8 i 0) 0
          rw [getD_take _ 4 2 (by omega), getD_drop]
          simp only [srcIndexSpec]
          congr 1
          ring
        · show ((samples.drop (i * 4)).take 4).getD 1 0
              = samples.getD (srcIndexSpec TextureFormat.BGRAU8 i 1) 0
          rw [getD_take _ 4 1 (by omega), getD_drop]
          simp only [srcIndexSpec]
          congr 1
          ring
        · show ((samples.drop (i * 4)).take 4).getD 0 0
              = samples.getD (srcIndexSpec TextureFormat.BGRAU8 i 2) 0
          rw [getD_take _ 4 0 (by omega), getD_drop]
          simp only [srcIndexSpec]
          congr 1
          ring

theorem C2_witness :
    (convert TextureFormat.BGRAU8 2 1 [10, 20, 30, 40, 50, 60, 70, 80]).length
        = 2 * 1 * 3
    ∧ (convert TextureFormat.BGRAU8 2 1 [10, 20, 30, 40, 50, 60, 70, 80]).getD
          (3 * 1 + 0) 0
        = [10, 20, 30, 40, 50, 60, 70, 80].getD
            (srcIndexSpec TextureFormat.BGRAU8 1 0) 0 :=
  ⟨(C2_normalization_correct TextureFormat.BGRAU8 2 1
      [10, 20, 30, 40, 50, 60, 70, 80] rfl).1,
   (C2_normalization_correct TextureFormat.BGRAU8 2 1
      [10, 20, 30, 40, 50, 60, 70, 80] rfl).2 1 0 (by decide) (by decide)⟩
